import Mathlib

/-!
Verification development for the salon booking backend.

The repository is a FastAPI + MongoDB salon booking API.  The booking core
lives in `main.py`: `to_object_id`, `serialize`, and the `/book` endpoint
`book_appointment`, together with the pydantic request model
`BookingRequest`.  This file gives a shallow embedding of that core:

* MongoDB ObjectIds are modelled as natural numbers; the string boundary
  (24-character hexadecimal ids) is modelled exactly, with `to_object_id`
  parsing and `objStr` printing (the model of Python's `str(object_id)`).
* The document store (`database.py`, a thin Mongo wrapper) is modelled as
  explicit in-memory collections with a fresh-id counter; `create_document`
  appends a document and returns its new id as a string, and `find_one`
  is a first-match scan, matching Mongo natural order for these queries.
* Timestamps are integers measured in minutes, so that
  `start + timedelta(minutes=d)` becomes `start + d`.
* `book_appointment` is a function from the request and the store state to
  a result (success payload or HTTP error), the new store state, and the
  trace of store operations performed, mirroring `main.py` lines 100-148
  statement by statement, including Python evaluation order (the
  `to_object_id` argument is evaluated before the enclosing `find_one`).
-/

/-! ## ObjectId strings (`bson.ObjectId` boundary) -/

/-- A character bson accepts inside a 24-character hex ObjectId string. -/
def isHexChar (c : Char) : Bool :=
  ('0' ≤ c && c ≤ '9') || ('a' ≤ c && c ≤ 'f') || ('A' ≤ c && c ≤ 'F')

/-- `ObjectId(id_str)` succeeds exactly on 24-character hexadecimal strings. -/
def isValidObjectIdStr (s : String) : Bool :=
  s.data.length == 24 && s.data.all isHexChar

/-- Numeric value of a hex character (0 on non-hex input, unused there). -/
def hexCharVal (c : Char) : Nat :=
  if '0' ≤ c && c ≤ '9' then c.toNat - '0'.toNat
  else if 'a' ≤ c && c ≤ 'f' then c.toNat - 'a'.toNat + 10
  else if 'A' ≤ c && c ≤ 'F' then c.toNat - 'A'.toNat + 10
  else 0

/-- Value of a hex digit string, most significant first. -/
def parseHex (s : String) : Nat :=
  s.data.foldl (fun a c => 16 * a + hexCharVal c) 0

/-- `main.py` `to_object_id`: parse a string into an ObjectId; a malformed
string raises `HTTPException(400, "Invalid ID format")`, modelled as `none`. -/
def to_object_id (s : String) : Option Nat :=
  if isValidObjectIdStr s then some (parseHex s) else none

/-- Hex digits of `n`, exactly `fuel` characters, zero-padded, lowercase
(most significant first), as Python's `str(ObjectId)` prints them. -/
def natToHexAux : Nat → Nat → List Char
  | 0, _ => []
  | fuel + 1, n => natToHexAux fuel (n / 16) ++ [Nat.digitChar (n % 16)]

/-- Python `str(object_id)`: the canonical 24-character lowercase hex form. -/
def objStr (n : Nat) : String :=
  ⟨natToHexAux 24 n⟩

/-! ## Data model (`schemas.py` collections, as stored documents) -/

/-- A stored `service` document.  `duration_minutes` is `Option` because a
raw document may lack the field: `main.py` reads it with
`service.get("duration_minutes", 60)`. -/
structure Service where
  name : String
  description : Option String
  duration_minutes : Option Int
  price : Int
deriving Repr, DecidableEq

/-- A stored `stylist` document (only fields the booking core touches). -/
structure Stylist where
  name : String
  specialties : List String
  bio : Option String
deriving Repr, DecidableEq

/-- A stored `customer` document. -/
structure Customer where
  name : String
  phone : String
  email : Option String
deriving Repr, DecidableEq

/-- A stored `appointment` document, exactly the fields `book_appointment`
writes.  Reference ids are strings because `main.py` stores
`str(customer["_id"])` etc. -/
structure Appointment where
  customer_id : String
  service_id : String
  stylist_id : String
  start_time : Int
  end_time : Int
  duration_minutes : Int
  notes : Option String
  status : String
deriving Repr, DecidableEq

/-- Modelled from the spec: the Entity Store (`database.py`, not part of the
booking source) — four collections of documents keyed by store-assigned
ObjectIds, plus the fresh-id counter the model uses to assign them. -/
structure DB where
  services : List (Nat × Service)
  stylists : List (Nat × Stylist)
  customers : List (Nat × Customer)
  appointments : List (Nat × Appointment)
  nextId : Nat
deriving Repr, DecidableEq

/-- Store well-formedness: every stored id was assigned below the counter,
and the counter (with headroom for the two inserts a booking can make)
stays inside the 12-byte ObjectId space. -/
def DBWf (db : DB) : Bool :=
  db.services.all (fun d => d.1 < db.nextId) &&
  db.stylists.all (fun d => d.1 < db.nextId) &&
  db.customers.all (fun d => d.1 < db.nextId) &&
  db.appointments.all (fun d => d.1 < db.nextId) &&
  db.nextId + 2 ≤ 16 ^ 24

/-- Modelled from the spec: `create_document` for the `customer` collection —
insert with a fresh store-assigned id and return that id as a string. -/
def create_customer (c : Customer) (db : DB) : String × DB :=
  (objStr db.nextId,
   { db with customers := db.customers ++ [(db.nextId, c)], nextId := db.nextId + 1 })

/-- Modelled from the spec: `create_document` for the `appointment`
collection. -/
def create_appointment (a : Appointment) (db : DB) : String × DB :=
  (objStr db.nextId,
   { db with appointments := db.appointments ++ [(db.nextId, a)], nextId := db.nextId + 1 })

/-! ## The booking endpoint -/

/-- `fastapi.HTTPException`: status code and detail message. -/
structure HTTPError where
  status_code : Nat
  detail : String
deriving Repr, DecidableEq

/-- The `/book` request body (`BookingRequest` in `main.py`). -/
structure BookingRequest where
  customer_name : String
  customer_phone : String
  customer_email : Option String
  service_id : String
  stylist_id : String
  start_time : Int
  notes : Option String
deriving Repr, DecidableEq

/-- `main.py` `serialize` applied to an appointment document: `_id` becomes
the string field `id`, datetimes are rendered (kept as integers here). -/
structure SerializedAppointment where
  id : String
  customer_id : String
  service_id : String
  stylist_id : String
  start_time : Int
  end_time : Int
  duration_minutes : Int
  notes : Option String
  status : String
deriving Repr, DecidableEq

/-- `serialize` on a fetched appointment document. -/
def serializeAppointment (doc : Nat × Appointment) : SerializedAppointment :=
  { id := objStr doc.1
    customer_id := doc.2.customer_id
    service_id := doc.2.service_id
    stylist_id := doc.2.stylist_id
    start_time := doc.2.start_time
    end_time := doc.2.end_time
    duration_minutes := doc.2.duration_minutes
    notes := doc.2.notes
    status := doc.2.status }

/-- One store operation, recorded in order, for reasoning about which
lookups and writes a call performs. -/
inductive StoreOp where
  | findServiceById
  | findStylistById
  | findCustomerByPhone
  | createCustomerDoc
  | findCustomerById
  | findConflictingAppointment
  | createAppointmentDoc
  | findAppointmentById
deriving Repr, DecidableEq

/-- Outcome of a `/book` call: the HTTP response (success payload or
raised `HTTPException`), the store state afterwards, and the trace of
store operations performed.  The success payload is an `Option` because
`serialize` passes `None` through unchanged. -/
structure BookResult where
  response : Except HTTPError (Option SerializedAppointment)
  db : DB
  ops : List StoreOp
deriving Repr

/-- The Mongo conflict filter of `main.py` lines 126-132, as a predicate on
one stored appointment document:
`stylist_id == str(stylist._id)`, `start_time < end AND end_time > start`,
and `status ∈ {scheduled, confirmed}`. -/
def isConflict (stylistOid : Nat) (start stop : Int) (a : Appointment) : Bool :=
  a.stylist_id == objStr stylistOid &&
  (a.start_time < stop && a.end_time > start) &&
  (a.status == "scheduled" || a.status == "confirmed")

/-- `main.py` lines 111-118: ensure the customer exists or create it.
Returns the customer document found or refetched after creation (`none`
models Python's `customer = None`, which a later subscript would crash on),
with the updated state and the store operations performed. -/
def resolve_customer (name phone : String) (email : Option String) (db : DB) :
    Option (Nat × Customer) × DB × List StoreOp :=
  match db.customers.find? (fun d => d.2.phone == phone) with
  | some doc => (some doc, db, [StoreOp.findCustomerByPhone])
  | none =>
    let created := create_customer { name := name, phone := phone, email := email } db
    match to_object_id created.1 with
    | none => (none, created.2, [StoreOp.findCustomerByPhone, StoreOp.createCustomerDoc])
    | some oid =>
      (created.2.customers.find? (fun d => d.1 == oid), created.2,
       [StoreOp.findCustomerByPhone, StoreOp.createCustomerDoc, StoreOp.findCustomerById])

/-- `main.py` `book_appointment` (lines 100-148), statement by statement.
Python raises `HTTPException` out of `to_object_id` while evaluating the
arguments of `find_one`, so a malformed id aborts before that lookup runs.
A `None` customer would make `customer["_id"]` on line 137 raise
`TypeError`, which FastAPI reports as a 500; that branch is unreachable on
well-formed stores. -/
def book_appointment (payload : BookingRequest) (db : DB) : BookResult :=
  match to_object_id payload.service_id with
  | none => ⟨.error ⟨400, "Invalid ID format"⟩, db, []⟩
  | some serviceOid =>
    match db.services.find? (fun d => d.1 == serviceOid) with
    | none => ⟨.error ⟨404, "Service not found"⟩, db, [.findServiceById]⟩
    | some serviceDoc =>
      match to_object_id payload.stylist_id with
      | none => ⟨.error ⟨400, "Invalid ID format"⟩, db, [.findServiceById]⟩
      | some stylistOid =>
        match db.stylists.find? (fun d => d.1 == stylistOid) with
        | none =>
          ⟨.error ⟨404, "Stylist not found"⟩, db, [.findServiceById, .findStylistById]⟩
        | some stylistDoc =>
          match resolve_customer payload.customer_name payload.customer_phone
              payload.customer_email db with
          | (customer?, db1, custOps) =>
            let ops := [StoreOp.findServiceById, StoreOp.findStylistById] ++ custOps
            match customer? with
            | none => ⟨.error ⟨500, "TypeError"⟩, db1, ops⟩
            | some customerDoc =>
              let duration : Int := (serviceDoc.2.duration_minutes).getD 60
              let start := payload.start_time
              let stop := start + duration
              match db1.appointments.find? (fun d => isConflict stylistDoc.1 start stop d.2) with
              | some _ =>
                ⟨.error ⟨409, "Time slot not available for this stylist"⟩, db1,
                 ops ++ [.findConflictingAppointment]⟩
              | none =>
                let newAppt : Appointment :=
                  { customer_id := objStr customerDoc.1
                    service_id := objStr serviceDoc.1
                    stylist_id := objStr stylistDoc.1
                    start_time := start
                    end_time := stop
                    duration_minutes := duration
                    notes := payload.notes
                    status := "scheduled" }
                let created := create_appointment newAppt db1
                let ops := ops ++ [StoreOp.findConflictingAppointment,
                                   StoreOp.createAppointmentDoc]
                match to_object_id created.1 with
                | none => ⟨.error ⟨400, "Invalid ID format"⟩, created.2, ops⟩
                | some apptOid =>
                  match created.2.appointments.find? (fun d => d.1 == apptOid) with
                  | none => ⟨.ok none, created.2, ops ++ [.findAppointmentById]⟩
                  | some apptDoc =>
                    ⟨.ok (some (serializeAppointment apptDoc)), created.2,
                     ops ++ [.findAppointmentById]⟩

/-- The appointment document a successful `/book` call writes, as a function
of the request, the resolved service and stylist documents, and the resolved
customer's id (`main.py` lines 136-145). -/
def bookedAppt (payload : BookingRequest) (svc : Nat × Service) (sty : Nat × Stylist)
    (cid : Nat) : Appointment :=
  { customer_id := objStr cid
    service_id := objStr svc.1
    stylist_id := objStr sty.1
    start_time := payload.start_time
    end_time := payload.start_time + (svc.2.duration_minutes).getD 60
    duration_minutes := (svc.2.duration_minutes).getD 60
    notes := payload.notes
    status := "scheduled" }

/-- Modelled from the spec: an out-of-band edit of a stored Service's
`duration_minutes` (seed/admin flow; no endpoint in the booking core mutates
services).  It touches only the service collection. -/
def updateServiceDuration (sid : Nat) (d : Option Int) (db : DB) : DB :=
  { db with services := db.services.map (fun doc =>
      if doc.1 = sid then (doc.1, { doc.2 with duration_minutes := d }) else doc) }

/-! ## Concrete fixtures (the seed data of `main.py` `/seed/basic`) -/

/-- The seeded "Haircut" service, 45 minutes. -/
def svcHaircut : Service :=
  { name := "Haircut", description := some "Classic haircut",
    duration_minutes := some 45, price := 35 }

/-- A service document whose `duration_minutes` field is absent. -/
def svcNoDuration : Service :=
  { name := "Mystery", description := none, duration_minutes := none, price := 20 }

/-- The seeded stylist. -/
def styAlex : Stylist :=
  { name := "Alex Morgan", specialties := ["Haircut", "Beard Trim"],
    bio := some "5 years experience" }

/-- An appointment document for stylist 2 over `[s, e)` with the given
status. -/
def apptAt (s e : Int) (status : String) : Appointment :=
  { customer_id := objStr 0, service_id := objStr 1, stylist_id := objStr 2,
    start_time := s, end_time := e, duration_minutes := 45, notes := none,
    status := status }

/-- A store with one service (id 1) and one stylist (id 2) and nothing else. -/
def dbSeed : DB :=
  { services := [(1, svcHaircut)], stylists := [(2, styAlex)], customers := [],
    appointments := [], nextId := 3 }

/-- `dbSeed` plus one existing appointment (id 3) for stylist 2. -/
def dbWithAppt (s e : Int) (status : String) : DB :=
  { services := [(1, svcHaircut)], stylists := [(2, styAlex)], customers := [],
    appointments := [(3, apptAt s e status)], nextId := 4 }

/-- A store whose only service document (id 1) lacks `duration_minutes`. -/
def dbSeedNoDur : DB :=
  { services := [(1, svcNoDuration)], stylists := [(2, styAlex)], customers := [],
    appointments := [], nextId := 3 }

/-- A booking request for service 1 / stylist 2 starting at `t` (minutes). -/
def reqAt (t : Int) : BookingRequest :=
  { customer_name := "Jane Doe", customer_phone := "555-0100",
    customer_email := none, service_id := objStr 1, stylist_id := objStr 2,
    start_time := t, notes := none }

/-! ## Lemmas about the ObjectId string boundary -/

theorem natToHexAux_length (f n : Nat) : (natToHexAux f n).length = f := by
  induction f generalizing n with
  | zero => rfl
  | succ f ih => simp [natToHexAux, ih]

theorem isHexChar_digitChar (m : Nat) (h : m < 16) :
    isHexChar (Nat.digitChar m) = true := by
  interval_cases m <;> decide

theorem natToHexAux_all_hex (f n : Nat) :
    (natToHexAux f n).all isHexChar = true := by
  induction f generalizing n with
  | zero => rfl
  | succ f ih =>
    simp only [natToHexAux, List.all_append, Bool.and_eq_true, ih, true_and,
      List.all_cons, List.all_nil, Bool.and_true]
    exact isHexChar_digitChar _ (Nat.mod_lt _ (by decide))

theorem hexCharVal_digitChar (m : Nat) (h : m < 16) :
    hexCharVal (Nat.digitChar m) = m := by
  interval_cases m <;> decide

theorem parseHex_aux (f : Nat) : ∀ (a n : Nat),
    List.foldl (fun a c => 16 * a + hexCharVal c) a (natToHexAux f n)
      = a * 16 ^ f + n % 16 ^ f := by
  induction f with
  | zero => intro a n; simp [natToHexAux, Nat.mod_one]
  | succ f ih =>
    intro a n
    rw [natToHexAux, List.foldl_append, ih]
    simp only [List.foldl_cons, List.foldl_nil]
    rw [hexCharVal_digitChar _ (Nat.mod_lt _ (by decide))]
    have hmul : n % 16 ^ (f + 1) = n % 16 + 16 * (n / 16 % 16 ^ f) := by
      rw [pow_succ']
      exact Nat.mod_mul
    have hpow : 16 ^ (f + 1) = 16 * 16 ^ f := pow_succ' 16 f
    rw [hmul, hpow]
    ring

theorem parseHex_objStr (n : Nat) : parseHex (objStr n) = n % 16 ^ 24 := by
  have h := parseHex_aux 24 0 n
  simpa [parseHex, objStr] using h

theorem isValidObjectIdStr_objStr (n : Nat) :
    isValidObjectIdStr (objStr n) = true := by
  simp [isValidObjectIdStr, objStr, natToHexAux_length, natToHexAux_all_hex]

theorem to_object_id_objStr (n : Nat) (h : n < 16 ^ 24) :
    to_object_id (objStr n) = some n := by
  simp only [to_object_id, isValidObjectIdStr_objStr, if_true, parseHex_objStr,
    Nat.mod_eq_of_lt h]

/-! ## Lemmas about store scans -/

/-- Looking a freshly inserted document up by its id finds exactly it, because
every previously stored id is smaller. -/
theorem find?_fresh {α : Type} (l : List (Nat × α)) (i : Nat) (x : α)
    (h : ∀ d ∈ l, d.1 < i) :
    (l ++ [(i, x)]).find? (fun d => d.1 == i) = some (i, x) := by
  rw [List.find?_append]
  have hnone : l.find? (fun d => d.1 == i) = none := by
    rw [List.find?_eq_none]
    intro d hd
    have := h d hd
    simp only [beq_iff_eq]
    omega
  simp [hnone, List.find?]

/-! ## Behavior of the store and of customer resolution -/

theorem DBWf_spec {db : DB} (h : DBWf db = true) :
    (∀ d ∈ db.services, d.1 < db.nextId) ∧ (∀ d ∈ db.stylists, d.1 < db.nextId) ∧
    (∀ d ∈ db.customers, d.1 < db.nextId) ∧ (∀ d ∈ db.appointments, d.1 < db.nextId) ∧
    db.nextId + 2 ≤ 16 ^ 24 := by
  simp only [DBWf, Bool.and_eq_true, List.all_eq_true, decide_eq_true_eq] at h
  exact ⟨h.1.1.1.1, h.1.1.1.2, h.1.1.2, h.1.2, h.2⟩

/-- When a customer with the requested phone exists, resolution returns it
and writes nothing. -/
theorem resolve_customer_found (name phone : String) (email : Option String) (db : DB)
    (doc : Nat × Customer)
    (hfound : db.customers.find? (fun d => d.2.phone == phone) = some doc) :
    resolve_customer name phone email db = (some doc, db, [StoreOp.findCustomerByPhone]) := by
  simp [resolve_customer, hfound]

/-- When no customer with the requested phone exists, resolution inserts one
with the supplied fields and returns the freshly stored document. -/
theorem resolve_customer_new (name phone : String) (email : Option String) (db : DB)
    (hnone : db.customers.find? (fun d => d.2.phone == phone) = none)
    (hlt : ∀ d ∈ db.customers, d.1 < db.nextId) (hsz : db.nextId < 16 ^ 24) :
    resolve_customer name phone email db =
      (some (db.nextId, ⟨name, phone, email⟩),
       { db with customers := db.customers ++ [(db.nextId, ⟨name, phone, email⟩)],
                 nextId := db.nextId + 1 },
       [StoreOp.findCustomerByPhone, StoreOp.createCustomerDoc,
        StoreOp.findCustomerById]) := by
  simp only [resolve_customer, hnone, create_customer, to_object_id_objStr _ hsz]
  rw [find?_fresh _ _ _ hlt]

/-- Master lemma for the success path: if all gates pass, exactly one
appointment document is appended, with the snapshot fields, and the call
returns its serialization. -/
theorem book_success_spec (payload : BookingRequest) (db : DB)
    (so ty : Nat) (svc : Nat × Service) (sty : Nat × Stylist)
    (hwf : DBWf db = true)
    (hso : to_object_id payload.service_id = some so)
    (hsvc : db.services.find? (fun d => d.1 == so) = some svc)
    (hty : to_object_id payload.stylist_id = some ty)
    (hsty : db.stylists.find? (fun d => d.1 == ty) = some sty)
    (hnc : db.appointments.find? (fun d =>
        isConflict sty.1 payload.start_time
          (payload.start_time + (svc.2.duration_minutes).getD 60) d.2) = none) :
    ∃ cdoc db1 ops1 i,
      resolve_customer payload.customer_name payload.customer_phone
          payload.customer_email db = (some cdoc, db1, ops1) ∧
      cdoc.2.phone = payload.customer_phone ∧
      (book_appointment payload db).db.appointments =
        db.appointments ++ [(i, bookedAppt payload svc sty cdoc.1)] ∧
      (book_appointment payload db).db.services = db.services ∧
      (book_appointment payload db).db.stylists = db.stylists ∧
      (book_appointment payload db).response =
        .ok (some (serializeAppointment (i, bookedAppt payload svc sty cdoc.1))) := by
  obtain ⟨-, -, hcust, happt, hsz⟩ := DBWf_spec hwf
  cases hphone : db.customers.find? (fun d => d.2.phone == payload.customer_phone) with
  | some doc =>
    have hph : doc.2.phone = payload.customer_phone := by
      have h := List.find?_some hphone
      simpa [beq_iff_eq] using h
    refine ⟨doc, db, [StoreOp.findCustomerByPhone], db.nextId,
      resolve_customer_found _ _ _ _ _ hphone, hph, ?_⟩
    simp only [book_appointment, hso, hsvc, hty, hsty,
      resolve_customer_found _ _ _ _ _ hphone, hnc, create_appointment,
      to_object_id_objStr db.nextId (by omega)]
    rw [find?_fresh _ _ _ happt]
    simp [bookedAppt]
  | none =>
    refine ⟨(db.nextId,
        ⟨payload.customer_name, payload.customer_phone, payload.customer_email⟩),
      _, _, db.nextId + 1,
      resolve_customer_new _ _ _ _ hphone hcust (by omega), rfl, ?_⟩
    simp only [book_appointment, hso, hsvc, hty, hsty,
      resolve_customer_new _ _ _ _ hphone hcust (by omega), hnc, create_appointment,
      to_object_id_objStr (db.nextId + 1) (by omega)]
    rw [find?_fresh _ _ _ (by intro d hd; have := happt d hd; omega)]
    simp [bookedAppt]

/-- Master lemma for the conflict path with a previously unseen phone: the
call fails with 409, the appointment collection is unchanged, and the
customer created by identity resolution persists. -/
theorem book_conflict_spec (payload : BookingRequest) (db : DB)
    (so ty : Nat) (svc : Nat × Service) (sty : Nat × Stylist)
    (cdoc : Nat × Appointment)
    (hwf : DBWf db = true)
    (hso : to_object_id payload.service_id = some so)
    (hsvc : db.services.find? (fun d => d.1 == so) = some svc)
    (hty : to_object_id payload.stylist_id = some ty)
    (hsty : db.stylists.find? (fun d => d.1 == ty) = some sty)
    (hphone : db.customers.find? (fun d => d.2.phone == payload.customer_phone) = none)
    (hc : db.appointments.find? (fun d =>
        isConflict sty.1 payload.start_time
          (payload.start_time + (svc.2.duration_minutes).getD 60) d.2) = some cdoc) :
    (book_appointment payload db).response =
      .error ⟨409, "Time slot not available for this stylist"⟩ ∧
    (book_appointment payload db).db.appointments = db.appointments ∧
    (book_appointment payload db).db.customers =
      db.customers ++ [(db.nextId,
        ⟨payload.customer_name, payload.customer_phone, payload.customer_email⟩)] := by
  obtain ⟨-, -, hcust, -, hsz⟩ := DBWf_spec hwf
  simp only [book_appointment, hso, hsvc, hty, hsty,
    resolve_customer_new _ _ _ _ hphone hcust (by omega), hc]
  simp

/-! ## Claim theorems -/

/-- C1: The conflict predicate used by booking holds, for a same-stylist
active appointment over `[s2, e2)` and a proposed slot `[s1, e1)`, iff
`s1 < e2` and `e1 > s2` (half-open overlap); and a booking whose start
equals an existing active appointment's end for the same stylist does not
conflict and succeeds. -/
theorem C1_conflict_iff_halfopen_overlap :
    (∀ (stylistOid : Nat) (s1 e1 : Int) (a : Appointment),
        a.stylist_id = objStr stylistOid →
        (a.status = "scheduled" ∨ a.status = "confirmed") →
        (isConflict stylistOid s1 e1 a = true ↔ (s1 < a.end_time ∧ e1 > a.start_time)))
    ∧ (book_appointment (reqAt 585) (dbWithAppt 540 585 "scheduled")).response
        = .ok (some (serializeAppointment
            (5, bookedAppt (reqAt 585) (1, svcHaircut) (2, styAlex) 4))) := by
  constructor
  · intro so s1 e1 a hsty hstat
    simp only [isConflict, hsty, beq_self_eq_true, Bool.true_and, Bool.and_eq_true,
      decide_eq_true_eq]
    rcases hstat with h | h <;> simp only [h] <;> simp <;> omega
  · rfl

/-- C1 witness: at a concrete same-stylist scheduled appointment `[540, 600)`
and proposed slot `[590, 630)`, the predicate evaluates to a conflict. -/
theorem C1_witness : isConflict 2 590 630 (apptAt 540 600 "scheduled") = true :=
  (C1_conflict_iff_halfopen_overlap.1 2 590 630 (apptAt 540 600 "scheduled") rfl
    (Or.inl rfl)).mpr (by decide)

/-- C2: only same-stylist appointments with status scheduled or confirmed can
match the conflict query; completed or cancelled appointments, and
appointments referencing a different stylist, never block — and a booking
whose slot is exactly covered by a cancelled appointment succeeds. -/
theorem C2_only_active_same_stylist_blocks :
    (∀ (stylistOid : Nat) (s e : Int) (a : Appointment),
      (isConflict stylistOid s e a = true →
        a.stylist_id = objStr stylistOid ∧
        (a.status = "scheduled" ∨ a.status = "confirmed")) ∧
      ((a.status = "completed" ∨ a.status = "cancelled") →
        isConflict stylistOid s e a = false) ∧
      (a.stylist_id ≠ objStr stylistOid → isConflict stylistOid s e a = false))
    ∧ (∃ out, (book_appointment (reqAt 540) (dbWithAppt 540 585 "cancelled")).response
        = .ok (some out)) := by
  constructor
  · intro so s e a
    refine ⟨?_, ?_, ?_⟩
    · intro h
      simp only [isConflict, Bool.and_eq_true, beq_iff_eq, Bool.or_eq_true] at h
      exact ⟨h.1.1, h.2⟩
    · intro h
      have hf : (a.status == "scheduled" || a.status == "confirmed") = false := by
        rcases h with h | h <;> rw [h] <;> decide
      simp [isConflict, hf]
    · intro h
      simp [isConflict, beq_eq_false_iff_ne.mpr h]
  · exact ⟨_, rfl⟩

/-- C2 witness: a cancelled appointment exactly covering the proposed slot
does not match the conflict query, nor does an active appointment of a
different stylist. -/
theorem C2_witness :
    isConflict 2 540 585 (apptAt 540 585 "cancelled") = false ∧
    isConflict 7 540 585 (apptAt 540 585 "scheduled") = false :=
  ⟨(C2_only_active_same_stylist_blocks.1 2 540 585 (apptAt 540 585 "cancelled")).2.1
      (Or.inr rfl),
   (C2_only_active_same_stylist_blocks.1 7 540 585 (apptAt 540 585 "scheduled")).2.2
      (by decide)⟩

/-- C3: a booking that passes all gates persists exactly one appointment
document — appended with the snapshot fields of `bookedAppt`, whose
`customer_id` is the id of the customer `resolve_customer` returns for the
request's identity fields (a customer carrying the request's phone), with
status "scheduled" — and returns its serialization carrying the
store-assigned id. -/
theorem C3_success_persists_exactly_one (payload : BookingRequest) (db : DB)
    (so ty : Nat) (svc : Nat × Service) (sty : Nat × Stylist)
    (hwf : DBWf db = true)
    (hso : to_object_id payload.service_id = some so)
    (hsvc : db.services.find? (fun d => d.1 == so) = some svc)
    (hty : to_object_id payload.stylist_id = some ty)
    (hsty : db.stylists.find? (fun d => d.1 == ty) = some sty)
    (hnc : db.appointments.find? (fun d =>
        isConflict sty.1 payload.start_time
          (payload.start_time + (svc.2.duration_minutes).getD 60) d.2) = none) :
    ∃ cdoc db1 ops1 i,
      resolve_customer payload.customer_name payload.customer_phone
          payload.customer_email db = (some cdoc, db1, ops1) ∧
      cdoc.2.phone = payload.customer_phone ∧
      (book_appointment payload db).db.appointments =
        db.appointments ++ [(i, bookedAppt payload svc sty cdoc.1)] ∧
      (book_appointment payload db).response =
        .ok (some (serializeAppointment (i, bookedAppt payload svc sty cdoc.1))) ∧
      (serializeAppointment (i, bookedAppt payload svc sty cdoc.1)).id = objStr i ∧
      (bookedAppt payload svc sty cdoc.1).customer_id = objStr cdoc.1 ∧
      (bookedAppt payload svc sty cdoc.1).status = "scheduled" := by
  obtain ⟨cdoc, db1, ops1, i, hres, hph, h1, -, -, h4⟩ :=
    book_success_spec payload db so ty svc sty hwf hso hsvc hty hsty hnc
  exact ⟨cdoc, db1, ops1, i, hres, hph, h1, h4, rfl, rfl, rfl⟩

/-- C3 witness: booking the seeded service and stylist on the seed store. -/
theorem C3_witness :
    ∃ cdoc db1 ops1 i,
      resolve_customer (reqAt 540).customer_name (reqAt 540).customer_phone
          (reqAt 540).customer_email dbSeed = (some cdoc, db1, ops1) ∧
      cdoc.2.phone = (reqAt 540).customer_phone ∧
      (book_appointment (reqAt 540) dbSeed).db.appointments =
        dbSeed.appointments ++
          [(i, bookedAppt (reqAt 540) (1, svcHaircut) (2, styAlex) cdoc.1)] ∧
      (book_appointment (reqAt 540) dbSeed).response =
        .ok (some (serializeAppointment
          (i, bookedAppt (reqAt 540) (1, svcHaircut) (2, styAlex) cdoc.1))) ∧
      (serializeAppointment
        (i, bookedAppt (reqAt 540) (1, svcHaircut) (2, styAlex) cdoc.1)).id = objStr i ∧
      (bookedAppt (reqAt 540) (1, svcHaircut) (2, styAlex) cdoc.1).customer_id
        = objStr cdoc.1 ∧
      (bookedAppt (reqAt 540) (1, svcHaircut) (2, styAlex) cdoc.1).status = "scheduled" :=
  C3_success_persists_exactly_one (reqAt 540) dbSeed 1 2 (1, svcHaircut) (2, styAlex)
    (by decide) (by decide) (by decide) (by decide) (by decide) (by decide)

/-- C4: a booking failing at the conflict gate writes no appointment (the
collection is unchanged) while the customer created for a previously unseen
phone number persists. -/
theorem C4_conflict_leaks_customer (payload : BookingRequest) (db : DB)
    (so ty : Nat) (svc : Nat × Service) (sty : Nat × Stylist) (cdoc : Nat × Appointment)
    (hwf : DBWf db = true)
    (hso : to_object_id payload.service_id = some so)
    (hsvc : db.services.find? (fun d => d.1 == so) = some svc)
    (hty : to_object_id payload.stylist_id = some ty)
    (hsty : db.stylists.find? (fun d => d.1 == ty) = some sty)
    (hphone : db.customers.find? (fun d => d.2.phone == payload.customer_phone) = none)
    (hc : db.appointments.find? (fun d =>
        isConflict sty.1 payload.start_time
          (payload.start_time + (svc.2.duration_minutes).getD 60) d.2) = some cdoc) :
    (book_appointment payload db).response =
      .error ⟨409, "Time slot not available for this stylist"⟩ ∧
    (book_appointment payload db).db.appointments = db.appointments ∧
    (book_appointment payload db).db.customers =
      db.customers ++ [(db.nextId,
        ⟨payload.customer_name, payload.customer_phone, payload.customer_email⟩)] :=
  book_conflict_spec payload db so ty svc sty cdoc hwf hso hsvc hty hsty hphone hc

/-- C4 witness: an overlapping request on the store with one scheduled
appointment gets a 409, writes no appointment, and leaves a new customer. -/
theorem C4_witness :
    (book_appointment (reqAt 560) (dbWithAppt 540 585 "scheduled")).response =
      .error ⟨409, "Time slot not available for this stylist"⟩ ∧
    (book_appointment (reqAt 560) (dbWithAppt 540 585 "scheduled")).db.appointments =
      (dbWithAppt 540 585 "scheduled").appointments ∧
    (book_appointment (reqAt 560) (dbWithAppt 540 585 "scheduled")).db.customers =
      (dbWithAppt 540 585 "scheduled").customers ++ [((dbWithAppt 540 585 "scheduled").nextId,
        ⟨(reqAt 560).customer_name, (reqAt 560).customer_phone, (reqAt 560).customer_email⟩)] :=
  C4_conflict_leaks_customer (reqAt 560) (dbWithAppt 540 585 "scheduled") 1 2
    (1, svcHaircut) (2, styAlex) (3, apptAt 540 585 "scheduled")
    (by decide) (by decide) (by decide) (by decide) (by decide) (by decide) (by decide)

/-- C5: identity resolution is idempotent and first-write-wins — resolving a
previously unseen phone twice with different names/emails yields the same
customer id both times, the stored document keeps the first call's fields,
and the second call writes nothing. -/
theorem C5_identity_first_write_wins (db : DB) (n1 n2 p : String)
    (e1 e2 : Option String)
    (hwf : DBWf db = true)
    (hphone : db.customers.find? (fun d => d.2.phone == p) = none) :
    ∃ db1 ops1,
      resolve_customer n1 p e1 db = (some (db.nextId, ⟨n1, p, e1⟩), db1, ops1) ∧
      resolve_customer n2 p e2 db1 =
        (some (db.nextId, ⟨n1, p, e1⟩), db1, [StoreOp.findCustomerByPhone]) := by
  obtain ⟨-, -, hcust, -, hsz⟩ := DBWf_spec hwf
  refine ⟨_, _, resolve_customer_new n1 p e1 db hphone hcust (by omega), ?_⟩
  refine resolve_customer_found n2 p e2 _ _ ?_
  show (db.customers ++ [(db.nextId, Customer.mk n1 p e1)]).find? (fun d => d.2.phone == p)
    = some (db.nextId, Customer.mk n1 p e1)
  rw [List.find?_append, hphone]
  simp

/-- C5 witness: two resolutions of the same fresh phone on the seed store. -/
theorem C5_witness :
    ∃ db1 ops1,
      resolve_customer "Ann" "555-0100" (some "a@x.io") dbSeed =
        (some (dbSeed.nextId, ⟨"Ann", "555-0100", some "a@x.io"⟩), db1, ops1) ∧
      resolve_customer "Bob" "555-0100" none db1 =
        (some (dbSeed.nextId, ⟨"Ann", "555-0100", some "a@x.io"⟩), db1,
         [StoreOp.findCustomerByPhone]) :=
  C5_identity_first_write_wins dbSeed "Ann" "Bob" "555-0100" (some "a@x.io") none
    (by decide) (by decide)

/-- C6: a well-formed but unknown service id fails with 404 "Service not
found" after only the service lookup: the store is unchanged (in particular
the customer collection) and identity resolution is never reached. -/
theorem C6_unknown_service_fail_fast (payload : BookingRequest) (db : DB) (so : Nat)
    (hso : to_object_id payload.service_id = some so)
    (hnone : db.services.find? (fun d => d.1 == so) = none) :
    book_appointment payload db =
      ⟨.error ⟨404, "Service not found"⟩, db, [StoreOp.findServiceById]⟩ := by
  simp [book_appointment, hso, hnone]

/-- C6 witness: requesting the unknown (but well-formed) service id 9 on the
seed store. -/
theorem C6_witness :
    book_appointment
        { reqAt 540 with service_id := objStr 9 } dbSeed =
      ⟨.error ⟨404, "Service not found"⟩, dbSeed, [StoreOp.findServiceById]⟩ :=
  C6_unknown_service_fail_fast { reqAt 540 with service_id := objStr 9 } dbSeed 9
    (by decide) (by decide)

/-- C7: on a successful booking of a service whose stored document carries
`duration_minutes = d`, the persisted appointment snapshots
`duration_minutes = d` and `end_time = start_time + d`. -/
theorem C7_end_time_from_service_duration (payload : BookingRequest) (db : DB)
    (so ty : Nat) (svc : Nat × Service) (sty : Nat × Stylist) (d : Int)
    (hwf : DBWf db = true)
    (hso : to_object_id payload.service_id = some so)
    (hsvc : db.services.find? (fun d => d.1 == so) = some svc)
    (hty : to_object_id payload.stylist_id = some ty)
    (hsty : db.stylists.find? (fun d => d.1 == ty) = some sty)
    (hdur : svc.2.duration_minutes = some d)
    (hnc : db.appointments.find? (fun d =>
        isConflict sty.1 payload.start_time
          (payload.start_time + (svc.2.duration_minutes).getD 60) d.2) = none) :
    ∃ cid i,
      (book_appointment payload db).db.appointments =
        db.appointments ++ [(i, bookedAppt payload svc sty cid)] ∧
      (bookedAppt payload svc sty cid).duration_minutes = d ∧
      (bookedAppt payload svc sty cid).end_time = payload.start_time + d ∧
      (book_appointment payload db).response =
        .ok (some (serializeAppointment (i, bookedAppt payload svc sty cid))) := by
  obtain ⟨cdoc, db1, ops1, i, -, -, h1, -, -, h4⟩ :=
    book_success_spec payload db so ty svc sty hwf hso hsvc hty hsty hnc
  exact ⟨cdoc.1, i, h1, by simp [bookedAppt, hdur], by simp [bookedAppt, hdur], h4⟩

/-- C7 witness: the seeded 45-minute service gives a 45-minute appointment
ending 45 minutes after the start. -/
theorem C7_witness :
    ∃ cid i,
      (book_appointment (reqAt 540) dbSeed).db.appointments =
        dbSeed.appointments ++ [(i, bookedAppt (reqAt 540) (1, svcHaircut) (2, styAlex) cid)] ∧
      (bookedAppt (reqAt 540) (1, svcHaircut) (2, styAlex) cid).duration_minutes = 45 ∧
      (bookedAppt (reqAt 540) (1, svcHaircut) (2, styAlex) cid).end_time = 540 + 45 ∧
      (book_appointment (reqAt 540) dbSeed).response =
        .ok (some (serializeAppointment
          (i, bookedAppt (reqAt 540) (1, svcHaircut) (2, styAlex) cid))) :=
  C7_end_time_from_service_duration (reqAt 540) dbSeed 1 2 (1, svcHaircut) (2, styAlex) 45
    (by decide) (by decide) (by decide) (by decide) (by decide) (by decide) (by decide)

/-- C8 counterexample: the claim "a malformed service_id or stylist_id is
reported before any store lookup is performed, and no lookup or write side
effect occurs" is false as stated — with a well-formed, existing service id
and a malformed stylist id, the service lookup is performed before the
Malformed Reference error is raised. -/
theorem C8_counterexample :
    ¬ (∀ (payload : BookingRequest) (db : DB),
        (to_object_id payload.service_id = none ∨ to_object_id payload.stylist_id = none) →
        book_appointment payload db =
          ⟨.error ⟨400, "Invalid ID format"⟩, db, []⟩) := by
  intro h
  have h2 := congrArg BookResult.ops
    (h { reqAt 540 with stylist_id := "nope" } dbSeed (Or.inr (by decide)))
  exact absurd h2 (by decide)

/-- C8 (amended): a malformed service_id is reported as Malformed Reference
(400, distinct from NotFound) before any store lookup with no side effects;
a malformed stylist_id with a well-formed, resolvable service_id is reported
before the stylist lookup, after only the service lookup, with no write side
effects — in both cases the store is unchanged. -/
theorem C8_malformed_reference_amended :
    ∀ (payload : BookingRequest) (db : DB),
      (to_object_id payload.service_id = none →
        book_appointment payload db = ⟨.error ⟨400, "Invalid ID format"⟩, db, []⟩)
      ∧ (∀ so svc, to_object_id payload.service_id = some so →
          db.services.find? (fun d => d.1 == so) = some svc →
          to_object_id payload.stylist_id = none →
          book_appointment payload db =
            ⟨.error ⟨400, "Invalid ID format"⟩, db, [StoreOp.findServiceById]⟩) := by
  intro payload db
  constructor
  · intro h
    simp [book_appointment, h]
  · intro so svc hso hsvc hty
    simp [book_appointment, hso, hsvc, hty]

/-- C8 witness: a malformed service id aborts with no operations at all; a
malformed stylist id aborts after only the service lookup. -/
theorem C8_witness :
    book_appointment { reqAt 540 with service_id := "bad" } dbSeed =
      ⟨.error ⟨400, "Invalid ID format"⟩, dbSeed, []⟩ ∧
    book_appointment { reqAt 540 with stylist_id := "nope" } dbSeed =
      ⟨.error ⟨400, "Invalid ID format"⟩, dbSeed, [StoreOp.findServiceById]⟩ :=
  ⟨(C8_malformed_reference_amended { reqAt 540 with service_id := "bad" } dbSeed).1
      (by decide),
   (C8_malformed_reference_amended { reqAt 540 with stylist_id := "nope" } dbSeed).2
      1 (1, svcHaircut) (by decide) (by decide) (by decide)⟩

/-- C9: `duration_minutes` and `end_time` on a persisted appointment are
snapshots — any later change to any stored service's `duration_minutes`
leaves the appointment collection, including the just-created appointment,
unchanged. -/
theorem C9_duration_is_snapshot (payload : BookingRequest) (db : DB)
    (so ty : Nat) (svc : Nat × Service) (sty : Nat × Stylist)
    (hwf : DBWf db = true)
    (hso : to_object_id payload.service_id = some so)
    (hsvc : db.services.find? (fun d => d.1 == so) = some svc)
    (hty : to_object_id payload.stylist_id = some ty)
    (hsty : db.stylists.find? (fun d => d.1 == ty) = some sty)
    (hnc : db.appointments.find? (fun d =>
        isConflict sty.1 payload.start_time
          (payload.start_time + (svc.2.duration_minutes).getD 60) d.2) = none) :
    ∃ cid i,
      (book_appointment payload db).db.appointments =
        db.appointments ++ [(i, bookedAppt payload svc sty cid)] ∧
      ∀ (sid : Nat) (d2 : Option Int),
        (updateServiceDuration sid d2 (book_appointment payload db).db).appointments =
          db.appointments ++ [(i, bookedAppt payload svc sty cid)] := by
  obtain ⟨cdoc, db1, ops1, i, -, -, h1, -, -, -⟩ :=
    book_success_spec payload db so ty svc sty hwf hso hsvc hty hsty hnc
  exact ⟨cdoc.1, i, h1, fun sid d2 => by simpa [updateServiceDuration] using h1⟩

/-- C9 witness: booking the 45-minute seeded service, then changing that
service's duration to 120, leaves the created appointment untouched. -/
theorem C9_witness :
    ∃ cid i,
      (book_appointment (reqAt 540) dbSeed).db.appointments =
        dbSeed.appointments ++ [(i, bookedAppt (reqAt 540) (1, svcHaircut) (2, styAlex) cid)] ∧
      ∀ (sid : Nat) (d2 : Option Int),
        (updateServiceDuration sid d2 (book_appointment (reqAt 540) dbSeed).db).appointments =
          dbSeed.appointments ++ [(i, bookedAppt (reqAt 540) (1, svcHaircut) (2, styAlex) cid)] :=
  C9_duration_is_snapshot (reqAt 540) dbSeed 1 2 (1, svcHaircut) (2, styAlex)
    (by decide) (by decide) (by decide) (by decide) (by decide) (by decide)

/-- C10: when the stored service document lacks `duration_minutes`, booking
does not fail: the conflict check runs against `[start, start + 60)` and the
persisted appointment gets `duration_minutes = 60` and
`end_time = start_time + 60`. -/
theorem C10_missing_duration_defaults_60 (payload : BookingRequest) (db : DB)
    (so ty : Nat) (svc : Nat × Service) (sty : Nat × Stylist)
    (hwf : DBWf db = true)
    (hso : to_object_id payload.service_id = some so)
    (hsvc : db.services.find? (fun d => d.1 == so) = some svc)
    (hty : to_object_id payload.stylist_id = some ty)
    (hsty : db.stylists.find? (fun d => d.1 == ty) = some sty)
    (hdur : svc.2.duration_minutes = none)
    (hnc : db.appointments.find? (fun d =>
        isConflict sty.1 payload.start_time (payload.start_time + 60) d.2) = none) :
    ∃ cid i,
      (book_appointment payload db).db.appointments =
        db.appointments ++ [(i, bookedAppt payload svc sty cid)] ∧
      (bookedAppt payload svc sty cid).duration_minutes = 60 ∧
      (bookedAppt payload svc sty cid).end_time = payload.start_time + 60 ∧
      (book_appointment payload db).response =
        .ok (some (serializeAppointment (i, bookedAppt payload svc sty cid))) := by
  have hnc' : db.appointments.find? (fun d =>
      isConflict sty.1 payload.start_time
        (payload.start_time + (svc.2.duration_minutes).getD 60) d.2) = none := by
    rw [hdur]
    simpa using hnc
  obtain ⟨cdoc, db1, ops1, i, -, -, h1, -, -, h4⟩ :=
    book_success_spec payload db so ty svc sty hwf hso hsvc hty hsty hnc'
  exact ⟨cdoc.1, i, h1, by simp [bookedAppt, hdur], by simp [bookedAppt, hdur], h4⟩

/-- C10 witness: booking the duration-less service succeeds with 60-minute
defaults. -/
theorem C10_witness :
    ∃ cid i,
      (book_appointment (reqAt 540) dbSeedNoDur).db.appointments =
        dbSeedNoDur.appointments ++
          [(i, bookedAppt (reqAt 540) (1, svcNoDuration) (2, styAlex) cid)] ∧
      (bookedAppt (reqAt 540) (1, svcNoDuration) (2, styAlex) cid).duration_minutes = 60 ∧
      (bookedAppt (reqAt 540) (1, svcNoDuration) (2, styAlex) cid).end_time = 540 + 60 ∧
      (book_appointment (reqAt 540) dbSeedNoDur).response =
        .ok (some (serializeAppointment
          (i, bookedAppt (reqAt 540) (1, svcNoDuration) (2, styAlex) cid))) :=
  C10_missing_duration_defaults_60 (reqAt 540) dbSeedNoDur 1 2 (1, svcNoDuration)
    (2, styAlex) (by decide) (by decide) (by decide) (by decide) (by decide) (by decide)
    (by decide)
